import Mathlib

/-!
Verification development for the massa bootstrap client core
(`massa-bootstrap/src/client.rs` and `massa-bootstrap/src/client_binder.rs`).

The Rust sources are shallowly embedded as executable Lean definitions:

* machine integers become `Nat` (Rust `u64`/`u32` operations that saturate or
  check are modelled explicitly: `Nat` subtraction is exactly Rust
  `saturating_sub`, checked conversions become explicit range tests);
* byte buffers become `List Nat`;
* fallible code returns `Except BootstrapError`; code that can `panic!` in
  Rust returns an `Outcome` with a dedicated `panicked` constructor;
* the cryptographic primitives (hashing, signature verification) and the
  domain serializers live in crates outside the embedded sources and are
  treated by the spec as external collaborators, so they are passed in as
  explicit function parameters (`hashFn`, `verify`, `serialize`, ...);
* network reads become an explicit input byte list (for the binder) or an
  explicit list of already-decoded server replies (for the session driver);
  network writes are returned as the list of bytes written.
-/

/-- `SIGNATURE_SIZE_BYTES` from massa-signature: an ed25519 signature is 64
bytes on the wire. -/
def SIGNATURE_SIZE_BYTES : Nat := 64

/-- Largest value of a Rust `u32`. -/
def U32_MAX : Nat := 4294967295

/-- Largest value of a Rust `i64`, as a `Nat`. -/
def I64_MAX : Nat := 9223372036854775807

/-- `BootstrapClientMessage` from `messages.rs` (client → server).  The opaque
cursor payloads (ledger key, async message id, cycle, slot) are modelled as
`Nat`. -/
inductive BootstrapClientMessage
  | AskFinalStatePart (last_key : Option Nat) (slot : Option Nat)
      (last_async_message_id : Option Nat) (last_cycle : Option Nat)
      (last_credits_slot : Option Nat)
  | AskBootstrapPeers
  | AskConsensusState
  | BootstrapSuccess
  | BootstrapError (error : String)
deriving DecidableEq

/-- One element of `final_state_changes`: the per-slot delta carried by a
`FinalStatePart`.  The three change sets are opaque domain values. -/
structure StateChanges where
  ledger_changes : Nat
  async_pool_changes : Nat
  roll_state_changes : Nat
deriving DecidableEq

/-- `BootstrapServerMessage` from `messages.rs` (server → client).  Opaque
domain payloads are modelled as `Nat` / `List Nat`. -/
inductive BootstrapServerMessage
  | BootstrapTime (server_time : Nat) (version : Nat)
  | FinalStatePart (ledger_data : List Nat) (async_pool_part : List Nat)
      (pos_cycle_part : List Nat) (pos_credits_part : List Nat)
      (slot : Nat) (final_state_changes : List (Nat × StateChanges))
  | FinalStateFinished
  | SlotTooOld
  | BootstrapPeers (peers : Nat)
  | ConsensusState (graph : Nat)
  | BootstrapError (error : String)
deriving DecidableEq

/-- The error kinds produced by the embedded code paths (from `error.rs` and
the `std::io::Error` conversions in `client.rs`).  `OversizeFrame` is the
spec's name for the `ModelsError` raised by the min-BE length codec when a
value exceeds its bound; the two signature error constructors distinguish the
two call sites (`Signature::from_bytes` and `verify_signature`) that both map
to `MassaSignatureError` in the source. -/
inductive BootstrapError
  | GeneralError (msg : String)
  | ReceivedError (msg : String)
  | UnexpectedServerMessage (m : BootstrapServerMessage)
  | IncompatibleVersionError (msg : String)
  | TimedOut (msg : String)
  | OversizeFrame
  | SignatureParseFail
  | SignatureVerifyFail
  | TimeError (msg : String)
  | IoError
deriving DecidableEq

deriving instance DecidableEq for Except

/-- Result of running a piece of code that may also `panic!` in Rust. -/
inductive Outcome (α : Type)
  | ok (a : α)
  | err (e : BootstrapError)
  | panicked (msg : String)
deriving DecidableEq

/-- Modelled from the spec: `u32::be_bytes_min_length` from massa-models
(not under `src/`).  Per the spec, the length-field width is the smallest `W`
such that `2 ^ (8 * W) > max_message_size`; since `max_bootstrap_message_size`
is a Rust `u32` this is the closed four-case form below (the Rust source
computes `4 - max.leading_zeros() / 8`). -/
def be_bytes_min_length (maxVal : Nat) : Nat :=
  if maxVal = 0 then 0
  else if maxVal < 256 then 1
  else if maxVal < 65536 then 2
  else if maxVal < 16777216 then 3
  else 4

/-- Big-endian encoding of `v` into exactly `w` bytes (helper for the min-BE
codec model). -/
def be_encode : Nat → Nat → List Nat
  | 0, _ => []
  | w + 1, v => be_encode w (v / 256) ++ [v % 256]

/-- Modelled from the spec: `u32::from_be_bytes_min` from massa-models (not
under `src/`).  Decodes the already-read `W`-byte buffer as a big-endian
unsigned integer and validates it against `max_value`, failing with
`OversizeFrame` (the spec's name) when the decoded value exceeds the bound. -/
def from_be_bytes_min (bytes : List Nat) (max_value : Nat) :
    Except BootstrapError Nat :=
  let res := bytes.foldl (fun acc b => acc * 256 + b) 0
  if res > max_value then .error .OversizeFrame else .ok res

/-- Modelled from the spec: `u32::to_be_bytes_min` from massa-models (not
under `src/`).  Encodes `v` in the minimal width for `max_value`, failing with
`OversizeFrame` when `v` exceeds `max_value`. -/
def to_be_bytes_min (v : Nat) (max_value : Nat) :
    Except BootstrapError (List Nat) :=
  if v > max_value then .error .OversizeFrame
  else .ok (be_encode (be_bytes_min_length max_value) v)

/-- The binder state from `client_binder.rs`: the configured maximum message
size, the cached length-field width, and the previous-message hash slot
(`prev_message`), holding the raw hash bytes.  The duplex stream itself is
externalized: reads take an explicit input byte list and writes return the
bytes written. -/
structure BootstrapClientBinder where
  max_bootstrap_message_size : Nat
  size_field_len : Nat
  prev_message : Option (List Nat)
deriving DecidableEq

/-- `BootstrapClientBinder::new` (the fields relevant to the embedded
behaviour). -/
def BootstrapClientBinder.new (max_bootstrap_message_size : Nat) :
    BootstrapClientBinder :=
  { max_bootstrap_message_size := max_bootstrap_message_size
    size_field_len := be_bytes_min_length max_bootstrap_message_size
    prev_message := none }

/-- `BootstrapClientBinder::handshake`: writes `version_bytes ++ random_bytes`
and sets the previous-message hash to the hash of that buffer.  Randomness is
passed in explicitly. -/
def BootstrapClientBinder.handshake (hashFn : List Nat → List Nat)
    (st : BootstrapClientBinder) (version_bytes random_bytes : List Nat) :
    BootstrapClientBinder × List Nat :=
  let b := version_bytes ++ random_bytes
  ({ st with prev_message := some (hashFn b) }, b)

/-- `BootstrapClientBinder::next` (client_binder.rs lines 92-160).
`input` is the incoming byte stream; the result carries the value returned,
the binder state after the call (Rust mutates `self` in place, so the state
after a failed call is observable), and the unread remainder of the stream.
`hashFn` is `Hash::compute_from`, `sig_ok` is `Signature::from_bytes`
succeeding, `verify` is `PublicKey::verify_signature`, `deserialize` is the
`BootstrapServerMessageDeserializer` (all external to the embedded sources).
Per the source, in the post-handshake branch `prev_message` is overwritten
with the hash of the signature bytes before the body is read or the signature
is verified. -/
def BootstrapClientBinder.next (hashFn : List Nat → List Nat)
    (sig_ok : List Nat → Bool) (verify : List Nat → List Nat → Bool)
    (deserialize : List Nat → Option BootstrapServerMessage)
    (st : BootstrapClientBinder) (input : List Nat) :
    Except BootstrapError BootstrapServerMessage × BootstrapClientBinder ×
      List Nat :=
  if input.length < SIGNATURE_SIZE_BYTES then (.error .IoError, st, input)
  else
    let sig_bytes := input.take SIGNATURE_SIZE_BYTES
    let rest1 := input.drop SIGNATURE_SIZE_BYTES
    if sig_ok sig_bytes = false then (.error .SignatureParseFail, st, rest1)
    else if rest1.length < st.size_field_len then (.error .IoError, st, rest1)
    else
      let len_bytes := rest1.take st.size_field_len
      let rest2 := rest1.drop st.size_field_len
      match from_be_bytes_min len_bytes st.max_bootstrap_message_size with
      | .error e => (.error e, st, rest2)
      | .ok msg_len =>
        match st.prev_message with
        | some prev_bytes =>
          let st' := { st with prev_message := some (hashFn sig_bytes) }
          if rest2.length < msg_len then (.error .IoError, st', rest2)
          else
            let body := rest2.take msg_len
            let rest3 := rest2.drop msg_len
            if verify (hashFn (prev_bytes ++ body)) sig_bytes = false then
              (.error .SignatureVerifyFail, st', rest3)
            else
              match deserialize body with
              | none => (.error (.GeneralError "deserialize error"), st', rest3)
              | some m => (.ok m, st', rest3)
        | none =>
          let st' := { st with prev_message := some (hashFn sig_bytes) }
          if rest2.length < msg_len then (.error .IoError, st', rest2)
          else
            let body := rest2.take msg_len
            let rest3 := rest2.drop msg_len
            if verify (hashFn body) sig_bytes = false then
              (.error .SignatureVerifyFail, st', rest3)
            else
              match deserialize body with
              | none => (.error (.GeneralError "deserialize error"), st', rest3)
              | some m => (.ok m, st', rest3)

/-- `BootstrapClientBinder::send` (client_binder.rs lines 164-201).  Returns
the call result, the binder state after the call, and the bytes written to
the wire before the call returned.  Per the source: the body is serialized,
its length converted to `u32` (failing only past `U32_MAX`); then, when a
previous message exists, `prev_message` is updated to the hash of
`prev_bytes ++ body` and the old hash bytes are written; only after that is
the length encoded with `to_be_bytes_min`, which is where an oversize body is
detected. -/
def BootstrapClientBinder.send (hashFn : List Nat → List Nat)
    (serialize : BootstrapClientMessage → List Nat)
    (st : BootstrapClientBinder) (msg : BootstrapClientMessage) :
    Except BootstrapError Unit × BootstrapClientBinder × List Nat :=
  let msg_bytes := serialize msg
  if msg_bytes.length > U32_MAX then
    (.error (.GeneralError "bootstrap message too large to encode"), st, [])
  else
    match st.prev_message with
    | some prev_bytes =>
      let st' := { st with prev_message := some (hashFn (prev_bytes ++ msg_bytes)) }
      match to_be_bytes_min msg_bytes.length st.max_bootstrap_message_size with
      | .error e => (.error e, st', prev_bytes)
      | .ok len_bytes => (.ok (), st', prev_bytes ++ len_bytes ++ msg_bytes)
    | none =>
      let st' := { st with prev_message := some (hashFn msg_bytes) }
      match to_be_bytes_min msg_bytes.length st.max_bootstrap_message_size with
      | .error e => (.error e, st', [])
      | .ok len_bytes => (.ok (), st', len_bytes ++ msg_bytes)

/-- The clock-compensation computation of `bootstrap_from_server`
(client.rs lines 233-253).  `MassaTime` is `u64` milliseconds, so times are
`Nat`; Rust `saturating_sub` is `Nat` subtraction; `checked_sub` and the
`u64 → i64` conversion are explicit range tests.  Per the source, the stored
compensation is the *absolute* difference between `server_time` and the
midpoint local time, converted to `i64` (so it is never negative). -/
def compute_compensation_millis (enable_clock_synchronization : Bool)
    (recv_time_uncompensated send_time_uncompensated server_time : Nat) :
    Except BootstrapError Int :=
  if enable_clock_synchronization then
    let ping := recv_time_uncompensated - send_time_uncompensated
    if recv_time_uncompensated < ping / 2 then
      .error (.TimeError "checked time subtraction failed")
    else
      let local_time_uncompensated := recv_time_uncompensated - ping / 2
      let compensation_millis :=
        if local_time_uncompensated ≤ server_time then
          server_time - local_time_uncompensated
        else
          local_time_uncompensated - server_time
      if compensation_millis > I64_MAX then
        .error (.GeneralError "Failed to convert compensation time into i64")
      else
        .ok (Int.ofNat compensation_millis)
  else
    .ok 0

/-- Modelled from the spec: the *signed* clock compensation the spec requires
(spec section 4.4 step 3 and section 9): `server_time − local_mid` as signed
milliseconds, failing with `ClockOverflow` when its magnitude does not fit a
signed 64-bit millisecond count.  Kept for comparison against the source's
`compute_compensation_millis`. -/
def spec_compensation_millis (enable_clock_synchronization : Bool)
    (recv_time send_time server_time : Nat) : Except BootstrapError Int :=
  if enable_clock_synchronization then
    let ping := recv_time - send_time
    let local_mid := recv_time - ping / 2
    let offset : Int := (server_time : Int) - (local_mid : Int)
    if offset.natAbs > I64_MAX then .error (.GeneralError "ClockOverflow")
    else .ok offset
  else
    .ok 0

/-- The error-probe phase of `bootstrap_from_server` (client.rs lines
156-169).  `probe` is `none` when the single timed `next()` attempt timed out
(the expected case), and `some m` when a message `m` was received.  Per the
source, a received `BootstrapError` is turned into `ReceivedError` carrying a
fixed, client-generated text, discarding the server's own text. -/
def probe_phase (probe : Option BootstrapServerMessage) :
    Except BootstrapError Unit :=
  match probe with
  | none => .ok ()
  | some (.BootstrapError _) =>
      .error (.ReceivedError "Bootstrap cancelled on this server because there is no slots available on this server. Will try to bootstrap to another node soon.")
  | some m => .error (.UnexpectedServerMessage m)

/-- The handshake-ping and clock phase of `bootstrap_from_server` (client.rs
lines 171-255).  `send_time`, `after_handshake_time` and `recv_time` are the
three `MassaTime::now` samples (before the handshake write, at the first ping
check right after it, and after the `BootstrapTime` read).  `replies` is the
incoming stream of decoded server messages; the returned list is what remains
unread.  Per the source the ping bound is checked twice: once right after the
handshake write, before the `BootstrapTime` message is read, and once after
it. -/
def clock_phase (max_ping : Nat)
    (send_time after_handshake_time recv_time : Nat)
    (enable_clock_synchronization : Bool) (version_compatible : Nat → Bool)
    (replies : List BootstrapServerMessage) :
    Except BootstrapError Int × List BootstrapServerMessage :=
  let ping1 := after_handshake_time - send_time
  if ping1 > max_ping then
    (.error (.GeneralError "bootstrap ping too high"), replies)
  else
    match replies with
    | [] => (.error (.TimedOut "bootstrap clock sync read timed out"), [])
    | r :: rest =>
      match r with
      | .BootstrapTime server_time version =>
        if version_compatible version = false then
          (.error (.IncompatibleVersionError "remote is running incompatible version"), rest)
        else
          let ping := recv_time - send_time
          if ping > max_ping then
            (.error (.GeneralError "bootstrap ping too high"), rest)
          else
            match compute_compensation_millis enable_clock_synchronization
                recv_time send_time server_time with
            | .error e => (.error e, rest)
            | .ok c => (.ok c, rest)
      | .BootstrapError error => (.error (.ReceivedError error), rest)
      | m => (.error (.UnexpectedServerMessage m), rest)

/-- The final-state store operations used by `stream_final_state`.  They live
in the massa-final-state / massa-ledger crates (external collaborators per
the spec), so they are passed in as functions over an opaque store handle
(`Nat`).  The four `set_*_part` appends are fallible and return the new
resume cursor; `apply_pos_changes` models
`pos_state.apply_changes(..) : Result<..>`, whose failure the source unwraps. -/
structure FinalStateOps where
  set_ledger_part : Nat → List Nat → Except BootstrapError (Nat × Option Nat)
  set_pool_part : Nat → List Nat → Except BootstrapError (Nat × Option Nat)
  set_cycle_history_part : Nat → List Nat → Except BootstrapError (Nat × Option Nat)
  set_deferred_credits_part : Nat → List Nat → Except BootstrapError (Nat × Option Nat)
  apply_ledger_changes : Nat → Nat → Nat → Nat
  apply_pool_changes_unchecked : Nat → Nat → Nat
  apply_pos_changes : Nat → Nat → Nat → Option Nat
  set_slot : Nat → Nat → Nat

/-- The `for (changes_slot, changes) in final_state_changes` loop of
`stream_final_state` (client.rs lines 81-95): ledger changes and async-pool
changes are applied unconditionally; the PoS roll-state application's
`Result` is unwrapped, so its failure is a Rust panic (`panicked`), not an
error return. -/
def apply_state_changes_list (ops : FinalStateOps) :
    Nat → List (Nat × StateChanges) → Outcome Nat
  | st, [] => .ok st
  | st, (changes_slot, changes) :: rest =>
    let st1 := ops.apply_ledger_changes st changes.ledger_changes changes_slot
    let st2 := ops.apply_pool_changes_unchecked st1 changes.async_pool_changes
    match ops.apply_pos_changes st2 changes.roll_state_changes changes_slot with
    | none => .panicked "called unwrap on an Err value"
    | some st3 => apply_state_changes_list ops st3 rest

/-- Application of one `FinalStatePart` under the final-state writer guard
(client.rs lines 70-96): the four part appends (each returning a cursor),
then the changes loop, then `final_state.slot ← slot`.  On the first failing
append the `?` operator returns the error before the cursor message is
updated. -/
def apply_final_state_part (ops : FinalStateOps) (st : Nat)
    (ledger_data async_pool_part pos_cycle_part pos_credits_part : List Nat)
    (slot : Nat) (final_state_changes : List (Nat × StateChanges)) :
    Outcome (Nat × Option Nat × Option Nat × Option Nat × Option Nat) :=
  match ops.set_ledger_part st ledger_data with
  | .error e => .err e
  | .ok (st1, last_key) =>
    match ops.set_pool_part st1 async_pool_part with
    | .error e => .err e
    | .ok (st2, last_async) =>
      match ops.set_cycle_history_part st2 pos_cycle_part with
      | .error e => .err e
      | .ok (st3, last_cycle) =>
        match ops.set_deferred_credits_part st3 pos_credits_part with
        | .error e => .err e
        | .ok (st4, last_credits) =>
          match apply_state_changes_list ops st4 final_state_changes with
          | .panicked m => .panicked m
          | .err e => .err e
          | .ok st5 =>
            .ok (ops.set_slot st5 slot, last_key, last_async, last_cycle,
              last_credits)

/-- The read loop of `stream_final_state` (client.rs lines 49-136).
`replies` is the stream of decoded server messages (an empty stream stands
for the read timing out).  The result carries the loop outcome, the
final-state handle, the value of `next_bootstrap_message` after the call, and
the unread replies.  Per the source, `next_bootstrap_message` is reassigned
only after a part is fully applied (or on `SlotTooOld`), so a failure
mid-part leaves it at the cursor of the last fully applied part. -/
def stream_final_state_loop (ops : FinalStateOps) :
    List BootstrapServerMessage → BootstrapClientMessage → Nat →
    Outcome Unit × Nat × BootstrapClientMessage × List BootstrapServerMessage
  | [], nm, st => (.err (.TimedOut "final state bootstrap read timed out"), st, nm, [])
  | r :: rest, nm, st =>
    match r with
    | .FinalStatePart ld ap pc pcr slot fsc =>
      match apply_final_state_part ops st ld ap pc pcr slot fsc with
      | .panicked m => (.panicked m, st, nm, rest)
      | .err e => (.err e, st, nm, rest)
      | .ok (st', last_key, last_async, last_cycle, last_credits) =>
        stream_final_state_loop ops rest
          (.AskFinalStatePart last_key (some slot) last_async last_cycle
            last_credits) st'
    | .FinalStateFinished => (.ok (), st, .AskBootstrapPeers, rest)
    | .SlotTooOld =>
      (.ok (), st, .AskFinalStatePart none none none none none, rest)
    | _ => (.err (.TimedOut "bad message"), st, nm, rest)

/-- `stream_final_state` (client.rs lines 28-143): requires the current
`next_bootstrap_message` to be an `AskFinalStatePart`, sends it, then runs
the read loop. -/
def stream_final_state (ops : FinalStateOps)
    (replies : List BootstrapServerMessage)
    (next_bootstrap_message : BootstrapClientMessage) (st : Nat) :
    Outcome Unit × Nat × BootstrapClientMessage × List BootstrapServerMessage :=
  match next_bootstrap_message with
  | .AskFinalStatePart _ _ _ _ _ =>
      stream_final_state_loop ops replies next_bootstrap_message st
  | _ =>
      (.err (.GeneralError "Try to stream the final state but the message to send to the server was not AskFinalStatePart"),
        st, next_bootstrap_message, replies)

/-- `GlobalBootstrapState` (lib.rs): the final-state handle (opaque `Nat`),
the optional peers list and consensus graph (opaque `Nat` payloads), and the
signed clock compensation. -/
structure GlobalBootstrapState where
  final_state : Nat
  peers : Option Nat
  graph : Option Nat
  compensation_millis : Int
deriving DecidableEq

/-- The post-clock ask loop of `bootstrap_from_server` (client.rs lines
257-328), dispatching on `next_bootstrap_message`.  `fuel` bounds the Rust
loop (which can iterate without reading a message when `BootstrapSuccess`
finds peers or graph missing); every state mutation performed before a
failure is kept, since the Rust code mutates `global_bootstrap_state` and
`next_bootstrap_message` through `&mut` references. -/
def session_message_loop (ops : FinalStateOps) :
    Nat → List BootstrapServerMessage → BootstrapClientMessage →
    GlobalBootstrapState →
    Outcome Unit × GlobalBootstrapState × BootstrapClientMessage ×
      List BootstrapServerMessage
  | 0, replies, nm, g => (.err (.TimedOut "model fuel exhausted"), g, nm, replies)
  | fuel + 1, replies, nm, g =>
    match nm with
    | .AskFinalStatePart k s a c r =>
      match stream_final_state ops replies (.AskFinalStatePart k s a c r)
          g.final_state with
      | (.ok _, st', nm', rest) =>
          session_message_loop ops fuel rest nm' { g with final_state := st' }
      | (.err e, st', nm', rest) =>
          (.err e, { g with final_state := st' }, nm', rest)
      | (.panicked m, st', nm', rest) =>
          (.panicked m, { g with final_state := st' }, nm', rest)
    | .AskBootstrapPeers =>
      match replies with
      | [] => (.err (.TimedOut "ask bootstrap peers timed out"), g, nm, [])
      | r :: rest =>
        match r with
        | .BootstrapPeers peers =>
            session_message_loop ops fuel rest .AskConsensusState
              { g with peers := some peers }
        | .BootstrapError error => (.err (.ReceivedError error), g, nm, rest)
        | other => (.err (.UnexpectedServerMessage other), g, nm, rest)
    | .AskConsensusState =>
      match replies with
      | [] => (.err (.TimedOut "ask consensus state timed out"), g, nm, [])
      | r :: rest =>
        match r with
        | .ConsensusState graph =>
            session_message_loop ops fuel rest .BootstrapSuccess
              { g with graph := some graph }
        | .BootstrapError error => (.err (.ReceivedError error), g, nm, rest)
        | other => (.err (.UnexpectedServerMessage other), g, nm, rest)
    | .BootstrapSuccess =>
      match g.graph with
      | none => session_message_loop ops fuel replies .AskConsensusState g
      | some _ =>
        match g.peers with
        | none => session_message_loop ops fuel replies .AskBootstrapPeers g
        | some _ => (.ok (), g, .BootstrapSuccess, replies)
    | .BootstrapError _ =>
      (.panicked "The next message to send shouldn't be BootstrapError", g, nm,
        replies)

/-- The per-connection observable inputs of one `bootstrap_from_server` call:
the error-probe outcome, the three clock samples, and the decoded server
replies of the session. -/
structure ServerScenario where
  probe : Option BootstrapServerMessage
  send_time : Nat
  after_handshake_time : Nat
  recv_time : Nat
  replies : List BootstrapServerMessage
deriving DecidableEq

/-- `bootstrap_from_server` (client.rs lines 147-331): error probe, then
handshake ping and clock phase (storing the compensation into the global
state), then the ask loop.  The returned global state and cursor reflect all
mutations performed before a failure, as in the Rust `&mut` threading. -/
def bootstrap_from_server (ops : FinalStateOps) (max_ping : Nat)
    (enable_clock_synchronization : Bool) (version_compatible : Nat → Bool)
    (fuel : Nat) (sc : ServerScenario)
    (next_bootstrap_message : BootstrapClientMessage)
    (g : GlobalBootstrapState) :
    Outcome Unit × GlobalBootstrapState × BootstrapClientMessage :=
  match probe_phase sc.probe with
  | .error e => (.err e, g, next_bootstrap_message)
  | .ok _ =>
    match clock_phase max_ping sc.send_time sc.after_handshake_time
        sc.recv_time enable_clock_synchronization version_compatible
        sc.replies with
    | (.error e, _) => (.err e, g, next_bootstrap_message)
    | (.ok comp, rest) =>
      let g1 := { g with compensation_millis := comp }
      match session_message_loop ops fuel rest next_bootstrap_message g1 with
      | (o, g2, nm2, _) => (o, g2, nm2)

/-- Result of the failover iteration of `get_state`. -/
inductive FailoverResult
  | success (g : GlobalBootstrapState)
  | exhausted
  | panicked (msg : String)
deriving DecidableEq

/-- The failover iteration of `get_state` (client.rs lines 437-469) over a
list of per-server scenarios: each failed session's mutated global state and
cursor are passed unchanged to the next server (the Rust loop holds them in
the controller's frame and passes `&mut` references into each session).  An
exhausted scenario list stands for a truncated observation of the unbounded
Rust loop. -/
def get_state_loop (ops : FinalStateOps) (max_ping : Nat)
    (enable_clock_synchronization : Bool) (version_compatible : Nat → Bool)
    (fuel : Nat) :
    List ServerScenario → BootstrapClientMessage → GlobalBootstrapState →
    FailoverResult × GlobalBootstrapState × BootstrapClientMessage
  | [], nm, g => (.exhausted, g, nm)
  | sc :: rest, nm, g =>
    match bootstrap_from_server ops max_ping enable_clock_synchronization
        version_compatible fuel sc nm g with
    | (.ok _, g', nm') => (.success g', g', nm')
    | (.err _, g', nm') =>
        get_state_loop ops max_ping enable_clock_synchronization
          version_compatible fuel rest nm' g'
    | (.panicked m, g', nm') => (.panicked m, g', nm')

/-- Observable scheduling events of the `get_state` retry loop. -/
inductive BootEv
  | shuffleList
  | tryServer (idx : Nat)
  | sleepRetry
deriving DecidableEq

/-- One pass of the inner `for` loop of `get_state` (client.rs lines
438-468) when every attempt fails: each server attempt is followed by a
`retry_delay` sleep (the `sleep` at line 467 runs inside the `for` body,
after every failed attempt). -/
def failoverRound (servers : List Nat) : List BootEv :=
  servers.flatMap (fun i => [BootEv.tryServer i, BootEv.sleepRetry])

/-- The event order of `get_state` (client.rs lines 425-469) when every
attempt fails, truncated to `rounds` passes of the unbounded outer `loop`:
the list is shuffled once, before the loop (line 426), and never reshuffled
afterwards. -/
def failoverEvents (servers : List Nat) (rounds : Nat) : List BootEv :=
  BootEv.shuffleList :: ((List.range rounds).flatMap (fun _ => failoverRound servers))

/-- The event order asserted by the claim (C4) in its own words: each round
begins with a fresh shuffle, the servers of a round are tried consecutively
with no sleep between them, and a single `retry_delay` sleep follows only
after the whole list is exhausted. -/
def claimedFailoverEvents (servers : List Nat) (rounds : Nat) : List BootEv :=
  (List.range rounds).flatMap
    (fun _ => BootEv.shuffleList :: (servers.map BootEv.tryServer ++ [BootEv.sleepRetry]))

/-- Concrete final-state operations for witnesses: every append succeeds and
returns no cursor, every change application succeeds, `set_slot` stores the
slot. -/
def trivialOps : FinalStateOps :=
  { set_ledger_part := fun st _ => .ok (st, none)
    set_pool_part := fun st _ => .ok (st, none)
    set_cycle_history_part := fun st _ => .ok (st, none)
    set_deferred_credits_part := fun st _ => .ok (st, none)
    apply_ledger_changes := fun st _ _ => st
    apply_pool_changes_unchecked := fun st _ => st
    apply_pos_changes := fun st _ _ => some st
    set_slot := fun _ slot => slot }

/-- Final-state operations whose PoS roll-state application fails (the case
the source unwraps). -/
def posFailOps : FinalStateOps :=
  { trivialOps with apply_pos_changes := fun _ _ _ => none }

/-- Final-state operations whose ledger append fails. -/
def ledgerFailOps : FinalStateOps :=
  { trivialOps with set_ledger_part := fun _ _ => .error (.GeneralError "ledger") }

/-- C1: the source computes the clock compensation as an absolute magnitude.
With `T_send = T_recv = 10` ms (so `ping = 0` and `local_mid = 10`) and
`server_time = 5` ms, the server's clock is 5 ms behind the local clock; the
signed offset required by the claim is `-5`, but the embedded source code
stores `+5`. -/
theorem clock_compensation_absolute_value_bug :
    compute_compensation_millis true 10 10 5 = Except.ok 5 ∧
    spec_compensation_millis true 10 10 5 = Except.ok (-5) ∧
    (5 : Int) ≠ (-5 : Int) := by
  refine ⟨?_, ?_, by decide⟩ <;> decide

/-- C5 counterexample: in the error-probe phase, the source does not carry
the server's text.  For a server text "foo", the session error is not
`ReceivedError "foo"`. -/
theorem server_refused_text_cex :
    probe_phase (some (.BootstrapError "foo"))
      ≠ Except.error (BootstrapError.ReceivedError "foo") := by
  decide

/-- C5 amended: when the error probe receives a `BootstrapError`, the session
fails with `ReceivedError` carrying a fixed client-generated notice,
regardless of the text the server sent. -/
theorem server_refused_fixed_text (text : String) :
    probe_phase (some (.BootstrapError text))
      = Except.error (BootstrapError.ReceivedError "Bootstrap cancelled on this server because there is no slots available on this server. Will try to bootstrap to another node soon.") := by
  rfl

/-- C8: when applying `roll_state_changes` of a received `FinalStatePart`
fails, the embedded source panics (the `unwrap` marked "TODO REMOVE THIS" in
client.rs line 94) instead of returning a `BadFrame` session error. -/
theorem pos_changes_apply_panics :
    (stream_final_state posFailOps
        [.FinalStatePart [] [] [] [] 3 [(1, ⟨0, 0, 0⟩)]]
        (.AskFinalStatePart none none none none none) 0).1
      = Outcome.panicked "called unwrap on an Err value" := by
  decide

/-- C6: the streaming cursor invariant of `stream_final_state`.  (a) After a
fully applied `FinalStatePart`, the loop continues with
`next_bootstrap_message = AskFinalStatePart` carrying exactly the cursors
returned by the four part appends and `slot = some slot`; (b) if applying a
part fails, the loop returns the error with `next_bootstrap_message`
unchanged (so it still holds the cursor of the last fully applied part);
(c) receiving `SlotTooOld` resets the cursor to all-absent. -/
theorem stream_cursor_update (ops : FinalStateOps)
    (ld ap pc pcr : List Nat) (slot : Nat)
    (fsc : List (Nat × StateChanges)) (rest : List BootstrapServerMessage)
    (nm : BootstrapClientMessage) (st st' : Nat)
    (k a c r : Option Nat) (e : BootstrapError) :
    (apply_final_state_part ops st ld ap pc pcr slot fsc
        = .ok (st', k, a, c, r) →
      stream_final_state_loop ops
          (.FinalStatePart ld ap pc pcr slot fsc :: rest) nm st
        = stream_final_state_loop ops rest
            (.AskFinalStatePart k (some slot) a c r) st') ∧
    (apply_final_state_part ops st ld ap pc pcr slot fsc = .err e →
      stream_final_state_loop ops
          (.FinalStatePart ld ap pc pcr slot fsc :: rest) nm st
        = (.err e, st, nm, rest)) ∧
    stream_final_state_loop ops (.SlotTooOld :: rest) nm st
      = (.ok (), st, .AskFinalStatePart none none none none none, rest) := by
  refine ⟨fun h => ?_, fun h => ?_, ?_⟩
  · simp [stream_final_state_loop, h]
  · simp [stream_final_state_loop, h]
  · simp [stream_final_state_loop]

/-- Witness for `stream_cursor_update` at concrete inputs: a part applied by
`trivialOps` (cursors all `none`, new slot 5), a part failing under
`ledgerFailOps`, and a `SlotTooOld` reception. -/
theorem stream_cursor_update_witness :
    (stream_final_state_loop trivialOps [.FinalStatePart [] [] [] [] 5 []]
        .AskBootstrapPeers 0
      = stream_final_state_loop trivialOps []
          (.AskFinalStatePart none (some 5) none none none) 5) ∧
    (stream_final_state_loop ledgerFailOps [.FinalStatePart [] [] [] [] 5 []]
        .AskBootstrapPeers 0
      = (.err (.GeneralError "ledger"), 0, .AskBootstrapPeers, [])) ∧
    stream_final_state_loop trivialOps [.SlotTooOld] .AskBootstrapPeers 0
      = (.ok (), 0, .AskFinalStatePart none none none none none, []) :=
  ⟨(stream_cursor_update trivialOps [] [] [] [] 5 [] [] .AskBootstrapPeers 0 5
      none none none none .IoError).1 (by decide),
   (stream_cursor_update ledgerFailOps [] [] [] [] 5 [] [] .AskBootstrapPeers 0 0
      none none none none (.GeneralError "ledger")).2.1 (by decide),
   (stream_cursor_update trivialOps [] [] [] [] 5 [] [] .AskBootstrapPeers 0 0
      none none none none .IoError).2.2⟩

/-- C10: the ping bound is enforced at two points.  (a) Right after the
handshake write — before the `BootstrapTime` message is read: if the second
clock sample minus the handshake send time exceeds `max_ping`, the session
ends with the ping-too-high error and the reply stream is untouched.
(b) After receiving a compatible `BootstrapTime`: if the third clock sample
minus the send time exceeds `max_ping`, the session ends with the same error
after having consumed that one message. -/
theorem ping_checked_before_clock_read (max_ping : Nat)
    (send_time after_handshake_time recv_time : Nat)
    (enable : Bool) (vc : Nat → Bool)
    (replies : List BootstrapServerMessage) :
    (after_handshake_time - send_time > max_ping →
      clock_phase max_ping send_time after_handshake_time recv_time enable vc
          replies
        = (.error (.GeneralError "bootstrap ping too high"), replies)) ∧
    (∀ server_time version rest,
      after_handshake_time - send_time ≤ max_ping →
      replies = .BootstrapTime server_time version :: rest →
      vc version = true →
      recv_time - send_time > max_ping →
      clock_phase max_ping send_time after_handshake_time recv_time enable vc
          replies
        = (.error (.GeneralError "bootstrap ping too high"), rest)) := by
  constructor
  · intro h
    simp [clock_phase, h]
  · intro server_time version rest h1 h2 h3 h4
    subst h2
    simp [clock_phase, Nat.not_lt.mpr h1, h3, h4]

/-- Witness for `ping_checked_before_clock_read`: with `max_ping = 1`, the
first conjunct at a handshake that took 5 ms, the second at a
`BootstrapTime` read that arrived after 5 ms. -/
theorem ping_checked_before_clock_read_witness :
    clock_phase 1 0 5 0 true (fun _ => true) []
      = (.error (.GeneralError "bootstrap ping too high"), []) ∧
    clock_phase 1 0 0 5 true (fun _ => true) [.BootstrapTime 3 1]
      = (.error (.GeneralError "bootstrap ping too high"), []) :=
  ⟨(ping_checked_before_clock_read 1 0 5 0 true (fun _ => true) []).1
      (by decide),
   (ping_checked_before_clock_read 1 0 0 5 true (fun _ => true)
      [.BootstrapTime 3 1]).2 3 1 [] (by decide) rfl rfl (by decide)⟩

/-- A scenario in which the session stores the clock compensation (42 ms) and
the peers list (payload 7) and then fails on the consensus-state reply. -/
def scenarioStoresPeersThenFails : ServerScenario :=
  ⟨none, 10, 10, 10,
    [.BootstrapTime 52 1, .FinalStateFinished, .BootstrapPeers 7,
      .BootstrapError "x"]⟩

/-- A scenario that fails immediately at the error probe, writing nothing. -/
def scenarioFailsAtProbe : ServerScenario :=
  ⟨some (.BootstrapError "y"), 0, 0, 0, []⟩

/-- A fresh global bootstrap state: no peers, no graph, compensation 0. -/
def freshGlobal : GlobalBootstrapState := ⟨0, none, none, 0⟩

/-- The global bootstrap state left behind by the failed session of
`scenarioStoresPeersThenFails`: peers stored, compensation stored. -/
def carriedGlobal : GlobalBootstrapState := ⟨0, some 7, none, 42⟩

/-- C9 counterexample: a failed session's stored peers and clock compensation
are carried into the session on the next server.  Session 1 stores
`peers = some 7` and `compensation = 42`, then fails; session 2 fails at the
error probe without writing anything; yet after session 2 the global state
still holds the values written by the failed session 1 (the fresh state had
`peers = none` and `compensation = 0`). -/
theorem failed_session_state_carried_cex :
    (get_state_loop trivialOps 100 true (fun _ => true) 9
        [scenarioStoresPeersThenFails, scenarioFailsAtProbe]
        (.AskFinalStatePart none none none none none) freshGlobal).2.1
      = carriedGlobal ∧
    freshGlobal.peers = none ∧ freshGlobal.compensation_millis = 0 ∧
    carriedGlobal.peers = some 7 ∧ carriedGlobal.compensation_millis = 42 := by
  decide

/-- C9 amended: across connections the whole mutable global bootstrap state
is carried forward, not only the resume cursor: when a session fails, the
failover loop passes exactly the mutated global state and the mutated
`next_bootstrap_message` into the attempt on the next server. -/
theorem failover_carries_global_state (ops : FinalStateOps) (max_ping : Nat)
    (enable : Bool) (vc : Nat → Bool) (fuel : Nat) (sc : ServerScenario)
    (rest : List ServerScenario) (nm : BootstrapClientMessage)
    (g : GlobalBootstrapState) (e : BootstrapError)
    (g' : GlobalBootstrapState) (nm' : BootstrapClientMessage)
    (h : bootstrap_from_server ops max_ping enable vc fuel sc nm g
      = (.err e, g', nm')) :
    get_state_loop ops max_ping enable vc fuel (sc :: rest) nm g
      = get_state_loop ops max_ping enable vc fuel rest nm' g' := by
  simp [get_state_loop, h]

/-- Witness for `failover_carries_global_state`: the failed session of
`scenarioStoresPeersThenFails` hands its mutated global state to the next
iteration. -/
theorem failover_carries_global_state_witness :
    get_state_loop trivialOps 100 true (fun _ => true) 9
        [scenarioStoresPeersThenFails, scenarioFailsAtProbe]
        (.AskFinalStatePart none none none none none) freshGlobal
      = get_state_loop trivialOps 100 true (fun _ => true) 9
          [scenarioFailsAtProbe] .AskConsensusState carriedGlobal :=
  failover_carries_global_state trivialOps 100 true (fun _ => true) 9
    scenarioStoresPeersThenFails [scenarioFailsAtProbe]
    (.AskFinalStatePart none none none none none) freshGlobal
    (.ReceivedError "x") carriedGlobal .AskConsensusState (by decide)

/-- C4 counterexample: over two servers and two passes of the outer loop,
the event order of the source differs from the order the claim asserts
(single shuffle up front and a sleep after every server in the source,
versus per-round reshuffle and one sleep per exhausted round in the claim).
-/
theorem failover_sleep_reshuffle_cex :
    failoverEvents [0, 1] 2 ≠ claimedFailoverEvents [0, 1] 2 := by
  decide

/-- Flattening a constant-block `flatMap`: helper for the failover trace. -/
theorem flatten_flatMap {α β : Type} (A : List α) (g : α → List (List β)) :
    (A.flatMap g).flatten = A.flatMap (fun a => (g a).flatten) := by
  induction A with
  | nil => rfl
  | cons a A ih => simp [List.flatMap_cons, List.flatten_append, ih]

/-- C4 amended: the source shuffles the server list exactly once, before the
retry loop (so no event after the head of the trace is a shuffle), and every
server attempt — including attempts that are not the last of their round —
is immediately followed by a `retry_delay` sleep (the trace after the single
shuffle is a concatenation of `[tryServer i, sleepRetry]` blocks). -/
theorem failover_single_shuffle_and_sleep_blocks (servers : List Nat)
    (rounds : Nat) :
    BootEv.shuffleList ∉
      (List.range rounds).flatMap (fun _ => failoverRound servers) ∧
    ∃ blocks : List (List BootEv),
      (∀ b ∈ blocks, ∃ i, b = [BootEv.tryServer i, BootEv.sleepRetry]) ∧
      failoverEvents servers rounds = BootEv.shuffleList :: blocks.flatten := by
  constructor
  · intro hmem
    rw [List.mem_flatMap] at hmem
    obtain ⟨-, -, hmem⟩ := hmem
    rw [failoverRound, List.mem_flatMap] at hmem
    obtain ⟨i, -, hmem⟩ := hmem
    simp at hmem
  · refine ⟨(List.range rounds).flatMap
      (fun _ => servers.map (fun i => [BootEv.tryServer i, BootEv.sleepRetry])),
      ?_, ?_⟩
    · intro b hb
      rw [List.mem_flatMap] at hb
      obtain ⟨-, -, hb⟩ := hb
      rw [List.mem_map] at hb
      obtain ⟨i, -, rfl⟩ := hb
      exact ⟨i, rfl⟩
    · rw [failoverEvents, flatten_flatMap]
      simp only [failoverRound, List.flatMap_def]

/-- Evaluation of `BootstrapClientBinder.next` on a well-formed post-handshake
frame `sig ‖ len ‖ body ‖ extra` whose length field decodes to the body
length: the call reduces to the signature-parse check, the verification of
`H(prev ‖ body)` against the signature bytes, and the body decode, with the
previous-message hash already updated to `H(sig_bytes)` in every branch past
the length check. -/
theorem next_eval (hashFn : List Nat → List Nat) (sig_ok : List Nat → Bool)
    (verify : List Nat → List Nat → Bool)
    (deserialize : List Nat → Option BootstrapServerMessage)
    (maxSize W : Nat) (p sig_bytes len_bytes body extra : List Nat)
    (hsig : sig_bytes.length = SIGNATURE_SIZE_BYTES)
    (hlen : len_bytes.length = W)
    (hdec : from_be_bytes_min len_bytes maxSize = .ok body.length) :
    BootstrapClientBinder.next hashFn sig_ok verify deserialize
        ⟨maxSize, W, some p⟩ (sig_bytes ++ (len_bytes ++ (body ++ extra)))
      = if sig_ok sig_bytes = false then
          (.error .SignatureParseFail, ⟨maxSize, W, some p⟩,
            len_bytes ++ (body ++ extra))
        else if verify (hashFn (p ++ body)) sig_bytes = false then
          (.error .SignatureVerifyFail,
            ⟨maxSize, W, some (hashFn sig_bytes)⟩, extra)
        else
          match deserialize body with
          | none => (.error (.GeneralError "deserialize error"),
              ⟨maxSize, W, some (hashFn sig_bytes)⟩, extra)
          | some m => (.ok m, ⟨maxSize, W, some (hashFn sig_bytes)⟩, extra) := by
  have h1 : ¬ (sig_bytes ++ (len_bytes ++ (body ++ extra))).length
      < SIGNATURE_SIZE_BYTES := by
    simp [hsig]
  have h2 : ¬ (len_bytes ++ (body ++ extra)).length < W := by
    simp [hlen]
  have h3 : ¬ (body ++ extra).length < body.length := by
    simp
  simp only [BootstrapClientBinder.next, h1, if_false, List.take_left' hsig,
    List.drop_left' hsig, List.take_left' hlen, List.drop_left' hlen, h2, hdec,
    h3, List.take_left, List.drop_left, ite_false]

/-- Evaluation of `BootstrapClientBinder.next` when the decoded length field
is rejected: the call fails with the decode error before the body is read,
leaving the binder state unchanged and the body bytes unconsumed. -/
theorem next_eval_oversize (hashFn : List Nat → List Nat)
    (sig_ok : List Nat → Bool) (verify : List Nat → List Nat → Bool)
    (deserialize : List Nat → Option BootstrapServerMessage)
    (maxSize W : Nat) (pm : Option (List Nat))
    (sig_bytes len_bytes rest : List Nat) (e : BootstrapError)
    (hsig : sig_bytes.length = SIGNATURE_SIZE_BYTES)
    (hok : sig_ok sig_bytes = true)
    (hlen : len_bytes.length = W)
    (hdec : from_be_bytes_min len_bytes maxSize = .error e) :
    BootstrapClientBinder.next hashFn sig_ok verify deserialize
        ⟨maxSize, W, pm⟩ (sig_bytes ++ (len_bytes ++ rest))
      = (.error e, ⟨maxSize, W, pm⟩, rest) := by
  have h1 : ¬ (sig_bytes ++ (len_bytes ++ rest)).length
      < SIGNATURE_SIZE_BYTES := by
    simp [hsig]
  have h2 : ¬ (len_bytes ++ rest).length < W := by
    simp [hlen]
  simp only [BootstrapClientBinder.next, h1, if_false, List.take_left' hsig,
    List.drop_left' hsig, List.take_left' hlen, List.drop_left' hlen, h2, hdec,
    hok, ite_false, Bool.true_eq_false]

/-- C2 counterexample: with `max_message_size = 2`, a previous-message hash
`[9]` and a 3-byte serialized body, `send` fails with `OversizeFrame` but has
already replaced the previous-message hash (`some [9]` becomes
`some [9, 0, 0, 0]` for the identity hash) and already written the old hash
bytes `[9]` to the wire — contradicting the claim that the failure is
detected before any state change or any byte is written. -/
theorem send_oversize_state_mutation_cex :
    BootstrapClientBinder.send (fun bs => bs) (fun _ => [0, 0, 0])
        ⟨2, 1, some [9]⟩ .AskBootstrapPeers
      = (.error .OversizeFrame, ⟨2, 1, some [9, 0, 0, 0]⟩, [9]) ∧
    some [9, 0, 0, 0] ≠ some [9] ∧ ([9] : List Nat) ≠ ([] : List Nat) := by
  decide

/-- C2 amended: (a) `send` detects an oversize body only at the
length-encoding step, after `prev_message` has been updated to
`H(prev ‖ body)` and after the old hash bytes were written to the wire;
(b) in `next`, an oversize length field fails before `prev_message` is
touched, leaving the binder state unchanged; (c) in `next`, a signature
verification failure or a body decode failure happens after `prev_message`
was overwritten with `H(sig_bytes)`. -/
theorem binder_state_update_on_failure :
    (∀ (hashFn : List Nat → List Nat)
        (serialize : BootstrapClientMessage → List Nat)
        (st : BootstrapClientBinder) (msg : BootstrapClientMessage)
        (p : List Nat),
      st.prev_message = some p →
      (serialize msg).length ≤ U32_MAX →
      st.max_bootstrap_message_size < (serialize msg).length →
      BootstrapClientBinder.send hashFn serialize st msg
        = (.error .OversizeFrame,
            { st with prev_message := some (hashFn (p ++ serialize msg)) },
            p)) ∧
    (∀ (hashFn : List Nat → List Nat) (sig_ok : List Nat → Bool)
        (verify : List Nat → List Nat → Bool)
        (deserialize : List Nat → Option BootstrapServerMessage)
        (maxSize W : Nat) (pm : Option (List Nat))
        (sig_bytes len_bytes rest : List Nat),
      sig_bytes.length = SIGNATURE_SIZE_BYTES →
      sig_ok sig_bytes = true →
      len_bytes.length = W →
      from_be_bytes_min len_bytes maxSize = .error .OversizeFrame →
      BootstrapClientBinder.next hashFn sig_ok verify deserialize
          ⟨maxSize, W, pm⟩ (sig_bytes ++ (len_bytes ++ rest))
        = (.error .OversizeFrame, ⟨maxSize, W, pm⟩, rest)) ∧
    (∀ (hashFn : List Nat → List Nat) (sig_ok : List Nat → Bool)
        (verify : List Nat → List Nat → Bool)
        (deserialize : List Nat → Option BootstrapServerMessage)
        (maxSize W : Nat) (p sig_bytes len_bytes body extra : List Nat),
      sig_bytes.length = SIGNATURE_SIZE_BYTES →
      len_bytes.length = W →
      from_be_bytes_min len_bytes maxSize = .ok body.length →
      ((BootstrapClientBinder.next hashFn sig_ok verify deserialize
          ⟨maxSize, W, some p⟩
          (sig_bytes ++ (len_bytes ++ (body ++ extra)))).1
            = .error .SignatureVerifyFail ∨
        (BootstrapClientBinder.next hashFn sig_ok verify deserialize
          ⟨maxSize, W, some p⟩
          (sig_bytes ++ (len_bytes ++ (body ++ extra)))).1
            = .error (.GeneralError "deserialize error")) →
      (BootstrapClientBinder.next hashFn sig_ok verify deserialize
          ⟨maxSize, W, some p⟩
          (sig_bytes ++ (len_bytes ++ (body ++ extra)))).2.1
        = ⟨maxSize, W, some (hashFn sig_bytes)⟩) := by
  refine ⟨?_, ?_, ?_⟩
  · intro hashFn serialize st msg p hp hle hgt
    unfold BootstrapClientBinder.send to_be_bytes_min
    rw [hp]
    simp [Nat.not_lt.mpr hle, hgt]
  · intro hashFn sig_ok verify deserialize maxSize W pm sig_bytes len_bytes
      rest hsig hok hlen hdec
    exact next_eval_oversize hashFn sig_ok verify deserialize maxSize W pm
      sig_bytes len_bytes rest .OversizeFrame hsig hok hlen hdec
  · intro hashFn sig_ok verify deserialize maxSize W p sig_bytes len_bytes
      body extra hsig hlen hdec h
    rw [next_eval hashFn sig_ok verify deserialize maxSize W p sig_bytes
      len_bytes body extra hsig hlen hdec] at h ⊢
    by_cases hso : sig_ok sig_bytes = false
    · simp [hso] at h
    · by_cases hv : verify (hashFn (p ++ body)) sig_bytes = false
      · simp [hso, hv]
      · rcases hd : deserialize body with _ | m
        · simp [hso, hv, hd]
        · simp [hso, hv, hd] at h

/-- Witness for `binder_state_update_on_failure` at concrete inputs: the
oversize send of `send_oversize_state_mutation_cex`-like shape, an oversize
length field in `next` (max 2, length byte 3), and a `next` whose signature
verification rejects. -/
theorem binder_state_update_on_failure_witness :
    BootstrapClientBinder.send (fun bs => bs) (fun _ => [1, 1, 1])
        ⟨2, 1, some [4]⟩ .AskConsensusState
      = (.error .OversizeFrame, ⟨2, 1, some [4, 1, 1, 1]⟩, [4]) ∧
    BootstrapClientBinder.next (fun bs => bs) (fun _ => true)
        (fun _ _ => true) (fun _ => none) ⟨2, 1, some [4]⟩
        (List.replicate 64 0 ++ ([3] ++ [8, 8]))
      = (.error .OversizeFrame, ⟨2, 1, some [4]⟩, [8, 8]) ∧
    (BootstrapClientBinder.next (fun bs => bs) (fun _ => true)
        (fun _ _ => false) (fun _ => none) ⟨2, 1, some [4]⟩
        (List.replicate 64 0 ++ ([1] ++ ([5] ++ [])))).2.1
      = ⟨2, 1, some (List.replicate 64 0)⟩ :=
  ⟨(binder_state_update_on_failure).1 (fun bs => bs) (fun _ => [1, 1, 1])
      ⟨2, 1, some [4]⟩ .AskConsensusState [4] rfl (by decide) (by decide),
   (binder_state_update_on_failure).2.1 (fun bs => bs) (fun _ => true)
      (fun _ _ => true) (fun _ => none) 2 1 (some [4]) (List.replicate 64 0)
      [3] [8, 8] (by decide) rfl rfl (by decide),
   (binder_state_update_on_failure).2.2 (fun bs => bs) (fun _ => true)
      (fun _ _ => false) (fun _ => none) 2 1 [4] (List.replicate 64 0) [1] [5]
      [] (by decide) rfl (by decide) (Or.inl (by decide))⟩

/-- C3: for a post-handshake `next` with previous-message hash `p`, a frame
`sig ‖ len ‖ body ‖ extra` is accepted only when `verify` accepts the
signature bytes against `H(p ‖ body)` (a rejected signature propagates as an
error), and after a successful receive the previous-message hash equals
`H(sig_bytes)` for the exact signature bytes read from the wire; moreover the
returned message is the decode of the body and exactly the frame was
consumed. -/
theorem next_accept_requires_valid_signature (hashFn : List Nat → List Nat)
    (sig_ok : List Nat → Bool) (verify : List Nat → List Nat → Bool)
    (deserialize : List Nat → Option BootstrapServerMessage)
    (maxSize W : Nat) (p sig_bytes len_bytes body extra : List Nat)
    (m : BootstrapServerMessage) (st' : BootstrapClientBinder)
    (rest : List Nat)
    (hsig : sig_bytes.length = SIGNATURE_SIZE_BYTES)
    (hlen : len_bytes.length = W)
    (hdec : from_be_bytes_min len_bytes maxSize = .ok body.length)
    (h : BootstrapClientBinder.next hashFn sig_ok verify deserialize
          ⟨maxSize, W, some p⟩ (sig_bytes ++ (len_bytes ++ (body ++ extra)))
        = (.ok m, st', rest)) :
    verify (hashFn (p ++ body)) sig_bytes = true ∧
    st'.prev_message = some (hashFn sig_bytes) ∧
    deserialize body = some m ∧ rest = extra := by
  rw [next_eval hashFn sig_ok verify deserialize maxSize W p sig_bytes
    len_bytes body extra hsig hlen hdec] at h
  by_cases hso : sig_ok sig_bytes = false
  · simp [hso] at h
  · by_cases hv : verify (hashFn (p ++ body)) sig_bytes = false
    · simp [hso, hv] at h
    · rcases hd : deserialize body with _ | m'
      · simp [hso, hv, hd] at h
      · simp [hso, hv, hd] at h
        obtain ⟨hm, hst, hrest⟩ := h
        subst hm
        refine ⟨by simpa using hv, ?_, rfl, hrest.symm⟩
        rw [← hst]

/-- Witness for `next_accept_requires_valid_signature`: a concrete accepted
frame (identity hash, all-accepting verifier, decoder returning
`FinalStateFinished`). -/
theorem next_accept_requires_valid_signature_witness :
    (fun (_ _ : List Nat) => true) ((fun bs => bs) ([9] ++ [5]))
        (List.replicate 64 0) = true ∧
    (⟨2, 1, some (List.replicate 64 0)⟩
        : BootstrapClientBinder).prev_message
      = some (List.replicate 64 0) ∧
    (fun (_ : List Nat) => some BootstrapServerMessage.FinalStateFinished) [5]
      = some BootstrapServerMessage.FinalStateFinished ∧
    ([] : List Nat) = [] :=
  next_accept_requires_valid_signature (fun bs => bs) (fun _ => true)
    (fun _ _ => true) (fun _ => some .FinalStateFinished) 2 1 [9]
    (List.replicate 64 0) [1] [5] [] .FinalStateFinished
    ⟨2, 1, some (List.replicate 64 0)⟩ [] (by decide) rfl (by decide)
    (by decide)

/-- `be_encode` produces exactly `w` bytes. -/
theorem be_encode_length (w v : Nat) : (be_encode w v).length = w := by
  induction w generalizing v with
  | zero => rfl
  | succ w ih => simp [be_encode, ih]

/-- Decoding an in-range `be_encode` recovers the value. -/
theorem be_decode_encode (w v : Nat) (h : v < 256 ^ w) :
    (be_encode w v).foldl (fun acc b => acc * 256 + b) 0 = v := by
  induction w generalizing v with
  | zero =>
    interval_cases v
    rfl
  | succ w ih =>
    have hdiv : v / 256 < 256 ^ w := by
      rw [Nat.div_lt_iff_lt_mul (by norm_num)]
      calc v < 256 ^ (w + 1) := h
        _ = 256 ^ w * 256 := by ring
    rw [be_encode, List.foldl_append, ih (v / 256) hdiv]
    simp [Nat.div_add_mod]
    omega

/-- The width computed by `be_bytes_min_length` is large enough for any
`u32`-ranged bound. -/
theorem be_bytes_min_length_large (maxVal : Nat) (h32 : maxVal < 2 ^ 32) :
    maxVal < 256 ^ be_bytes_min_length maxVal := by
  unfold be_bytes_min_length
  split_ifs <;> norm_num <;> omega

/-- The width computed by `be_bytes_min_length` is minimal: for a positive
bound, one byte fewer can no longer represent it. -/
theorem be_bytes_min_length_tight (maxVal : Nat) (hpos : 0 < maxVal) :
    256 ^ (be_bytes_min_length maxVal - 1) ≤ maxVal := by
  unfold be_bytes_min_length
  split_ifs <;> norm_num <;> omega

/-- C7: the length field of `next` uses the minimal big-endian width `W` for
`max_message_size` (`256 ^ W` exceeds the bound but `256 ^ (W − 1)` does
not), a length field encoding exactly `max_message_size` decodes
successfully, and a frame whose `W`-byte length field encodes
`max_message_size + 1` makes `next` fail with `OversizeFrame`, leaving the
binder state unchanged and the body bytes (`rest`) unread. -/
theorem length_field_bounds (maxSize : Nat) (h32 : maxSize < 2 ^ 32)
    (hashFn : List Nat → List Nat) (sig_ok : List Nat → Bool)
    (verify : List Nat → List Nat → Bool)
    (deserialize : List Nat → Option BootstrapServerMessage)
    (pm : Option (List Nat)) (sig_bytes rest : List Nat)
    (hsig : sig_bytes.length = SIGNATURE_SIZE_BYTES)
    (hok : sig_ok sig_bytes = true) :
    (maxSize < 256 ^ be_bytes_min_length maxSize ∧
      (0 < maxSize → 256 ^ (be_bytes_min_length maxSize - 1) ≤ maxSize)) ∧
    from_be_bytes_min (be_encode (be_bytes_min_length maxSize) maxSize)
        maxSize = .ok maxSize ∧
    (maxSize + 1 < 256 ^ be_bytes_min_length maxSize →
      BootstrapClientBinder.next hashFn sig_ok verify deserialize
          ⟨maxSize, be_bytes_min_length maxSize, pm⟩
          (sig_bytes ++
            (be_encode (be_bytes_min_length maxSize) (maxSize + 1) ++ rest))
        = (.error .OversizeFrame,
            ⟨maxSize, be_bytes_min_length maxSize, pm⟩, rest)) := by
  refine ⟨⟨be_bytes_min_length_large maxSize h32,
    fun hpos => be_bytes_min_length_tight maxSize hpos⟩, ?_, ?_⟩
  · unfold from_be_bytes_min
    rw [be_decode_encode _ _ (be_bytes_min_length_large maxSize h32)]
    simp
  · intro hfit
    refine next_eval_oversize hashFn sig_ok verify deserialize maxSize
      (be_bytes_min_length maxSize) pm sig_bytes
      (be_encode (be_bytes_min_length maxSize) (maxSize + 1)) rest
      .OversizeFrame hsig hok (be_encode_length _ _) ?_
    unfold from_be_bytes_min
    rw [be_decode_encode _ _ hfit]
    simp

/-- Witness for `length_field_bounds` with `max_message_size = 2` (so
`W = 1`): a length byte of 2 decodes, a length byte of 3 is rejected with
`OversizeFrame` before the body `[7]` is read. -/
theorem length_field_bounds_witness :
    2 < 256 ^ be_bytes_min_length 2 ∧
    from_be_bytes_min (be_encode (be_bytes_min_length 2) 2) 2
      = .ok 2 ∧
    BootstrapClientBinder.next (fun bs => bs) (fun _ => true)
        (fun _ _ => true) (fun _ => none) ⟨2, be_bytes_min_length 2, some [9]⟩
        (List.replicate 64 0 ++ (be_encode (be_bytes_min_length 2) 3 ++ [7]))
      = (.error .OversizeFrame, ⟨2, be_bytes_min_length 2, some [9]⟩, [7]) :=
  ⟨(length_field_bounds 2 (by decide) (fun bs => bs) (fun _ => true)
      (fun _ _ => true) (fun _ => none) (some [9]) (List.replicate 64 0) [7]
      (by decide) rfl).1.1,
   (length_field_bounds 2 (by decide) (fun bs => bs) (fun _ => true)
      (fun _ _ => true) (fun _ => none) (some [9]) (List.replicate 64 0) [7]
      (by decide) rfl).2.1,
   (length_field_bounds 2 (by decide) (fun bs => bs) (fun _ => true)
      (fun _ _ => true) (fun _ => none) (some [9]) (List.replicate 64 0) [7]
      (by decide) rfl).2.2 (by decide)⟩
